import Mathlib

/-!
# Verification of the laika-test-client assignment caching and resolution subsystem

This file is a shallow embedding, in Lean 4, of the core of the
`laika-test-client` JavaScript library: the `AssignmentCache` (TTL-bounded
in-memory map), the assignment resolver (`_findCachedAssignment`), the five
facade operations (`getPromptForUser`, `getPromptForSession`,
`getRandomPrompt`, `trackOutcome` with its convenience wrappers, and
`getExperimentEvents`), and the validation layer they share.

Modelling conventions:
* JavaScript strings are `String`; a string-or-absent value is
  `Option String`, and JS truthiness of such a value (`none`, `undefined`
  and `""` are falsy) is the `truthy` function.
* JS numbers occurring in the API surface (scores, page, limit) are `ℚ`.
* Timestamps (`Date.now()`, TTLs) are `Nat` milliseconds, passed explicitly
  as a `now` parameter.
* The JS `Map` backing the cache is an association list with
  insert-overwrites semantics (`mapSet` / `lookupKey` / `mapDelete`).
* The network transport is opaque: each operation takes the parsed 2xx
  response envelope as an explicit argument, and additionally returns the
  list of requests it issued (empty when the operation failed before
  reaching the network).  Errors are the four-kind taxonomy `ClientError`,
  carrying the exact message strings used by the source.
* `new Date(s)` parsing is modelled by `jsDateParse`, a recognizer of the
  ECMA-262 Date Time String Format (the engine-specific legacy fallback
  parser for non-ISO strings is not modelled); the model assumes a UTC
  local time zone when a date-time string carries no offset.
-/

namespace LaikaClient

/-- JS truthiness of a string-or-absent value: `null`/`undefined` and the
empty string are falsy, every other string is truthy. -/
def truthy : Option String → Bool
  | none => false
  | some s => !s.isEmpty

/-- The expression `x || 'null'` from `AssignmentCache._generateKey`:
absent (or empty) identifiers are replaced by the sentinel `"null"`. -/
def orNull : Option String → String
  | none => "null"
  | some s => if s.isEmpty then "null" else s

/-- A server-issued assignment.  The client treats the payload as opaque
except for `assignment_id`; `prompt_content` stands for the rest of the
payload. -/
structure Assignment where
  assignment_id : String
  prompt_content : String
  deriving DecidableEq, Repr

/-- One cache slot: an assignment with its absolute expiry timestamp
(`expiresAt = now + ttl` at store time). -/
structure CacheEntry where
  assignment : Assignment
  expiresAt : Nat
  deriving DecidableEq, Repr

/-- The JS `Map` backing `AssignmentCache`, as an association list. -/
abbrev Cache := List (String × CacheEntry)

/-- `Map.prototype.get`. -/
def lookupKey (k : String) : Cache → Option CacheEntry
  | [] => none
  | p :: rest => if p.1 = k then some p.2 else lookupKey k rest

/-- `Map.prototype.set`: overwrite in place if the key is present,
otherwise append. -/
def mapSet (k : String) (v : CacheEntry) : Cache → Cache
  | [] => [(k, v)]
  | p :: rest => if p.1 = k then (k, v) :: rest else p :: mapSet k v rest

/-- `Map.prototype.delete`. -/
def mapDelete (k : String) : Cache → Cache
  | [] => []
  | p :: rest => if p.1 = k then mapDelete k rest else p :: mapDelete k rest

namespace AssignmentCache

/-- `AssignmentCache._generateKey(experimentId, userId, sessionId)`:
`` `${experimentId}:${userId || 'null'}:${sessionId || 'null'}` ``. -/
def generateKey (experimentId : String) (userId sessionId : Option String) : String :=
  experimentId ++ ":" ++ orNull userId ++ ":" ++ orNull sessionId

/-- `AssignmentCache.store`: insert or overwrite the entry for the triple,
with `expiresAt = now + ttl`. -/
def store (ttl now : Nat) (experimentId : String) (userId sessionId : Option String)
    (assignment : Assignment) (c : Cache) : Cache :=
  mapSet (generateKey experimentId userId sessionId) ⟨assignment, now + ttl⟩ c

/-- `AssignmentCache.get`: return the assignment if present and not
expired; if present but expired (`now > expiresAt`), delete the entry and
return `none` (lazy expiry).  Returns the possibly-updated map as well. -/
def get (now : Nat) (experimentId : String) (userId sessionId : Option String)
    (c : Cache) : Option Assignment × Cache :=
  match lookupKey (generateKey experimentId userId sessionId) c with
  | none => (none, c)
  | some entry =>
    if now > entry.expiresAt then
      (none, mapDelete (generateKey experimentId userId sessionId) c)
    else (some entry.assignment, c)

/-- `AssignmentCache.cleanup` (the periodic sweep): drop every entry with
`now > expiresAt`. -/
def cleanup (now : Nat) (c : Cache) : Cache :=
  c.filter (fun p => decide (now ≤ p.2.expiresAt))

end AssignmentCache

/- ### Injectivity of the cache key on well-behaved identifiers -/

/-- An identifier that cannot be confused by the string-concatenation key:
present values must be non-empty, distinct from the sentinel `"null"`, and
free of the separator `':'`. -/
def goodId : Option String → Bool
  | none => true
  | some x => !(x == "") && !(x == "null") && !(decide (':' ∈ x.data))

/- ### Error taxonomy, envelopes and requests -/

/-- The four error classes of the client (`LaikaServiceError`,
`NetworkError`, `ValidationError`, `AssignmentNotFoundError`), each
carrying its message string.  The `statusCode`/`cause` payloads of errors
produced by the transport layer are outside this model: every operation is
given an already-parsed 2xx envelope, so the only `serviceError`s are the
ones the client itself raises (which carry no status code). -/
inductive ClientError where
  | validationError (msg : String)
  | assignmentNotFoundError (msg : String)
  | serviceError (msg : String)
  | networkError (msg : String)
  deriving DecidableEq, Repr

instance {ε α : Type} [DecidableEq ε] [DecidableEq α] : DecidableEq (Except ε α) := fun a b =>
  match a, b with
  | .error x, .error y =>
    if h : x = y then .isTrue (by rw [h])
    else .isFalse (fun he => h (Except.error.inj he))
  | .ok x, .ok y =>
    if h : x = y then .isTrue (by rw [h])
    else .isFalse (fun he => h (Except.ok.inj he))
  | .error _, .ok _ => .isFalse (fun he => Except.noConfusion he)
  | .ok _, .error _ => .isFalse (fun he => Except.noConfusion he)

/-- Parsed 2xx envelope of a prompt-allocation response. -/
structure PromptEnvelope where
  success : Bool
  data : Option Assignment
  deriving DecidableEq, Repr

/-- The body and path parameter of `POST /api/v1/experiments/{id}/prompt`. -/
structure PromptRequest where
  experimentId : String
  split_type : String
  user_id : Option String := none
  session_id : Option String := none
  deriving DecidableEq, Repr

/-- Server acknowledgement of a tracked event. -/
structure EventAck where
  id : String
  deriving DecidableEq, Repr

/-- Parsed 2xx envelope of an event-tracking response. -/
structure TrackEnvelope where
  success : Bool
  data : Option EventAck
  deriving DecidableEq, Repr

/-- The body of `POST /api/v1/events`. -/
structure EventPost where
  assignment_id : String
  outcome : String
  score : Option ℚ := none
  user_feedback : Option String := none
  deriving DecidableEq, Repr

/- ### Prompt-fetch operations -/

/-- `getPromptForUser(experimentId, userId)`: validate, consult the cache,
and on a miss consume the network envelope (checking the inner
success/data contract) and store the result under `(e, u, ∅)`.  The third
component lists the network requests issued. -/
def getPromptForUser (ttl now : Nat) (experimentId userId : String)
    (resp : PromptEnvelope) (c : Cache) :
    Except ClientError Assignment × Cache × List PromptRequest :=
  if experimentId.isEmpty then
    (.error (.validationError "experimentId is required"), c, [])
  else if userId.isEmpty then
    (.error (.validationError "userId is required"), c, [])
  else
    let cached := AssignmentCache.get now experimentId (some userId) none c
    match cached.1 with
    | some a => (.ok a, cached.2, [])
    | none =>
      let req : PromptRequest :=
        { experimentId := experimentId, split_type := "user", user_id := some userId }
      match resp.data, resp.success with
      | some d, true =>
        (.ok d, AssignmentCache.store ttl now experimentId (some userId) none d cached.2, [req])
      | _, _ => (.error (.serviceError "Invalid response format"), cached.2, [req])

/-- `getPromptForSession(experimentId, sessionId)`: as the user fetch, but
keyed on `(e, ∅, s)`. -/
def getPromptForSession (ttl now : Nat) (experimentId sessionId : String)
    (resp : PromptEnvelope) (c : Cache) :
    Except ClientError Assignment × Cache × List PromptRequest :=
  if experimentId.isEmpty then
    (.error (.validationError "experimentId is required"), c, [])
  else if sessionId.isEmpty then
    (.error (.validationError "sessionId is required"), c, [])
  else
    let cached := AssignmentCache.get now experimentId none (some sessionId) c
    match cached.1 with
    | some a => (.ok a, cached.2, [])
    | none =>
      let req : PromptRequest :=
        { experimentId := experimentId, split_type := "session", session_id := some sessionId }
      match resp.data, resp.success with
      | some d, true =>
        (.ok d, AssignmentCache.store ttl now experimentId none (some sessionId) d cached.2, [req])
      | _, _ => (.error (.serviceError "Invalid response format"), cached.2, [req])

/-- `getRandomPrompt(experimentId)`: always a network round trip; random
assignments are never read from nor stored into the cache. -/
def getRandomPrompt (experimentId : String) (resp : PromptEnvelope) (c : Cache) :
    Except ClientError Assignment × Cache × List PromptRequest :=
  if experimentId.isEmpty then
    (.error (.validationError "experimentId is required"), c, [])
  else
    let req : PromptRequest := { experimentId := experimentId, split_type := "random" }
    match resp.data, resp.success with
    | some d, true => (.ok d, c, [req])
    | _, _ => (.error (.serviceError "Invalid response format"), c, [req])

/- ### Outcome tracking -/

/-- `_findCachedAssignment(experimentId, userId, sessionId)`: exact triple
first, then user-only, then session-only; each probe is a (lazily
expiring) cache `get`, so the map state is threaded through. -/
def findCachedAssignment (now : Nat) (experimentId : String)
    (userId sessionId : Option String) (c : Cache) : Option Assignment × Cache :=
  let r1 := AssignmentCache.get now experimentId userId sessionId c
  match r1.1 with
  | some a => (some a, r1.2)
  | none =>
    if truthy userId then
      let r2 := AssignmentCache.get now experimentId userId none r1.2
      match r2.1 with
      | some a => (some a, r2.2)
      | none =>
        if truthy sessionId then AssignmentCache.get now experimentId none sessionId r2.2
        else (none, r2.2)
    else
      if truthy sessionId then AssignmentCache.get now experimentId none sessionId r1.2
      else (none, r1.2)

/-- The options bag of `trackOutcome`. -/
structure TrackOptions where
  experimentId : Option String := none
  userId : Option String := none
  sessionId : Option String := none
  score : Option ℚ := none
  userFeedback : Option String := none
  assignmentId : Option String := none
  deriving DecidableEq, Repr

/-- The `['success', 'failure'].includes(outcome)` check (an absent or
empty outcome is also rejected by it). -/
def validOutcome (outcome : String) : Bool :=
  outcome == "success" || outcome == "failure"

/-- `typeof score !== 'number' || score < 0 || score > 10`, for a present
score (the JS typeof check cannot fail in this typed model). -/
def scoreInvalid : Option ℚ → Bool
  | none => false
  | some v => decide (v < 0) || decide (10 < v)

/-- `!['positive', 'negative', 'neutral'].includes(userFeedback)`, for a
present feedback value. -/
def feedbackInvalid : Option String → Bool
  | none => false
  | some f => !(f == "positive" || f == "negative" || f == "neutral")

/-- The tail of `trackOutcome` after the assignment id has been resolved:
validate `score` and `userFeedback`, build the event body, POST it, and
check the envelope's inner `success` flag. -/
def postEvent (outcome finalAssignmentId : String) (opts : TrackOptions)
    (resp : TrackEnvelope) (c : Cache) :
    Except ClientError (Option EventAck) × Cache × List EventPost :=
  if scoreInvalid opts.score then
    (.error (.validationError "score must be a number between 0 and 10"), c, [])
  else if feedbackInvalid opts.userFeedback then
    (.error (.validationError "userFeedback must be \"positive\", \"negative\", or \"neutral\""), c, [])
  else
    let req : EventPost :=
      { assignment_id := finalAssignmentId, outcome := outcome,
        score := opts.score, user_feedback := opts.userFeedback }
    if resp.success then (.ok resp.data, c, [req])
    else (.error (.serviceError "Failed to track event"), c, [req])

/-- `trackOutcome(outcome, options)`: validate the outcome, resolve the
assignment id (explicit id first, else via `_findCachedAssignment`,
raising `AssignmentNotFoundError` on a miss and `ValidationError` when
identifiers are missing), then `postEvent`. -/
def trackOutcome (now : Nat) (outcome : String) (opts : TrackOptions)
    (resp : TrackEnvelope) (c : Cache) :
    Except ClientError (Option EventAck) × Cache × List EventPost :=
  if !validOutcome outcome then
    (.error (.validationError "outcome must be \"success\" or \"failure\""), c, [])
  else if truthy opts.assignmentId && truthy opts.experimentId then
    postEvent outcome (opts.assignmentId.getD "") opts resp c
  else if truthy opts.experimentId && (truthy opts.userId || truthy opts.sessionId) then
    let found := findCachedAssignment now (opts.experimentId.getD "")
      opts.userId opts.sessionId c
    match found.1 with
    | none =>
      (.error (.assignmentNotFoundError
        ("No assignment found for experiment " ++ opts.experimentId.getD ""
          ++ ". Call getPrompt* method first.")), found.2, [])
    | some a => postEvent outcome a.assignment_id opts resp found.2
  else
    (.error (.validationError
      "Either (assignmentId + experimentId) or (experimentId + userId/sessionId) must be provided"),
     c, [])

/-- `trackSuccess(options)` convenience wrapper. -/
def trackSuccess (now : Nat) (opts : TrackOptions) (resp : TrackEnvelope) (c : Cache) :
    Except ClientError (Option EventAck) × Cache × List EventPost :=
  trackOutcome now "success" opts resp c

/-- `trackFailure(options)` convenience wrapper. -/
def trackFailure (now : Nat) (opts : TrackOptions) (resp : TrackEnvelope) (c : Cache) :
    Except ClientError (Option EventAck) × Cache × List EventPost :=
  trackOutcome now "failure" opts resp c

/-- `trackFeedback(feedback, options)`:
`trackOutcome('success', { ...options, userFeedback: feedback })`. -/
def trackFeedback (now : Nat) (feedback : String) (opts : TrackOptions)
    (resp : TrackEnvelope) (c : Cache) :
    Except ClientError (Option EventAck) × Cache × List EventPost :=
  trackOutcome now "success" { opts with userFeedback := some feedback } resp c

/- ### `new Date(...)` — ECMA-262 Date Time String Format -/

/-- Read exactly `n` decimal digits into an accumulator. -/
def readDigits : Nat → Nat → List Char → Option (Nat × List Char)
  | 0, acc, l => some (acc, l)
  | Nat.succ n, acc, c :: l =>
    if c.isDigit then readDigits n (acc * 10 + (c.toNat - 48)) l else none
  | Nat.succ _, _, [] => none

/-- Split a maximal leading run of digits off a character list. -/
def takeDigits : List Char → List Char × List Char
  | [] => ([], [])
  | c :: l =>
    if c.isDigit then
      let p := takeDigits l
      (c :: p.1, p.2)
    else ([], c :: l)

/-- Value of a digit list (most significant first). -/
def digitsToNat (acc : Nat) : List Char → Nat
  | [] => acc
  | c :: l => digitsToNat (acc * 10 + (c.toNat - 48)) l

/-- Milliseconds denoted by a fraction-of-second digit run (first three
digits, right-padded with zeros). -/
def fracMs (ds : List Char) : Nat :=
  digitsToNat 0 ((ds ++ ['0', '0', '0']).take 3)

/-- `YYYY` or the extended `±YYYYYY` year. -/
def parseYear : List Char → Option (Int × List Char)
  | '+' :: l => (readDigits 6 0 l).map (fun p => ((p.1 : Int), p.2))
  | '-' :: l => (readDigits 6 0 l).map (fun p => (-(p.1 : Int), p.2))
  | l => (readDigits 4 0 l).map (fun p => ((p.1 : Int), p.2))

/-- Optional `-MM` and `-DD` (defaulting to January 1). -/
def parseMonthDay (l : List Char) : Option (Nat × Nat × List Char) :=
  match l with
  | '-' :: l1 =>
    match readDigits 2 0 l1 with
    | none => none
    | some (m, l2) =>
      match l2 with
      | '-' :: l3 =>
        match readDigits 2 0 l3 with
        | none => none
        | some (d, l4) => some (m, d, l4)
      | _ => some (m, 1, l2)
  | _ => some (1, 1, l)

/-- `HH:mm`, optional `:ss`, optional `.s…` fraction. -/
def parseTime (l : List Char) : Option (Nat × Nat × Nat × Nat × List Char) :=
  match readDigits 2 0 l with
  | none => none
  | some (hh, l1) =>
    match l1 with
    | ':' :: l2 =>
      match readDigits 2 0 l2 with
      | none => none
      | some (mm, l3) =>
        match l3 with
        | ':' :: l4 =>
          match readDigits 2 0 l4 with
          | none => none
          | some (ss, l5) =>
            match l5 with
            | '.' :: l6 =>
              let p := takeDigits l6
              if p.1.isEmpty then none
              else some (hh, mm, ss, fracMs p.1, p.2)
            | _ => some (hh, mm, ss, 0, l5)
        | _ => some (hh, mm, 0, 0, l3)
    | _ => none

/-- `HH:mm` or `HHmm` of a numeric offset, as minutes. -/
def parseOffsetHM (l : List Char) : Option (Int × List Char) :=
  match readDigits 2 0 l with
  | none => none
  | some (hh, l1) =>
    match l1 with
    | ':' :: l2 => (readDigits 2 0 l2).map (fun p => (((hh * 60 + p.1 : Nat) : Int), p.2))
    | _ => (readDigits 2 0 l1).map (fun p => (((hh * 60 + p.1 : Nat) : Int), p.2))

/-- Time-zone designator: absent, `Z`, or a signed `HH:mm` offset. -/
def parseZone (l : List Char) : Option (Option Int × List Char) :=
  match l with
  | [] => some (none, [])
  | 'Z' :: l1 => some (some 0, l1)
  | '+' :: l1 => (parseOffsetHM l1).map (fun p => (some p.1, p.2))
  | '-' :: l1 => (parseOffsetHM l1).map (fun p => (some (-p.1), p.2))
  | _ => none

/-- Proleptic-Gregorian leap year. -/
def isLeap (y : Int) : Bool := (y % 4 == 0 && y % 100 != 0) || (y % 400 == 0)

def daysInMonth (y : Int) (m : Nat) : Nat :=
  match m with
  | 1 => 31
  | 2 => if isLeap y then 29 else 28
  | 3 => 31
  | 4 => 30
  | 5 => 31
  | 6 => 30
  | 7 => 31
  | 8 => 31
  | 9 => 30
  | 10 => 31
  | 11 => 30
  | 12 => 31
  | _ => 0

/-- A fully parsed, range-checked date-time string. -/
structure DateParts where
  year : Int
  month : Nat
  day : Nat
  hour : Nat
  minute : Nat
  second : Nat
  ms : Nat
  offsetMinutes : Option Int
  deriving DecidableEq, Repr

/-- Field-range validation (`24:00:00.000` is the one legal hour-24
time). -/
def checkParts (y : Int) (m d hh mm ss msv : Nat) (off : Option Int) :
    Option DateParts :=
  if 1 ≤ m ∧ m ≤ 12 ∧ 1 ≤ d ∧ d ≤ daysInMonth y m ∧
      (hh < 24 ∨ (hh = 24 ∧ mm = 0 ∧ ss = 0 ∧ msv = 0)) ∧ mm ≤ 59 ∧ ss ≤ 59 then
    some ⟨y, m, d, hh, mm, ss, msv, off⟩
  else none

/-- `new Date(s)` validity, modelled as a recognizer of the ECMA-262 Date
Time String Format.  (Engines additionally accept some legacy non-ISO
strings; those are outside this model.) -/
def jsDateParse (s : String) : Option DateParts :=
  match parseYear s.data with
  | none => none
  | some (y, l1) =>
    match parseMonthDay l1 with
    | none => none
    | some (m, d, l2) =>
      match l2 with
      | [] => checkParts y m d 0 0 0 0 none
      | 'T' :: l3 =>
        match parseTime l3 with
        | none => none
        | some (hh, mm, ss, msv, l4) =>
          match parseZone l4 with
          | none => none
          | some (off, l5) =>
            if l5.isEmpty then checkParts y m d hh mm ss msv off else none
      | _ => none

/-- `!isNaN(new Date(s).getTime())`. -/
def jsDateParses (s : String) : Bool := (jsDateParse s).isSome

/-- Days since 1970-01-01 of a proleptic-Gregorian civil date. -/
def daysFromCivil (y : Int) (m d : Nat) : Int :=
  let y' : Int := if m ≤ 2 then y - 1 else y
  let era : Int := (if 0 ≤ y' then y' else y' - 399) / 400
  let yoe : Int := y' - era * 400
  let mp : Int := ((m : Int) + 9) % 12
  let doy : Int := (153 * mp + 2) / 5 + ((d : Int) - 1)
  let doe : Int := yoe * 365 + yoe / 4 - yoe / 100 + doy
  era * 146097 + doe - 719468

/-- Epoch milliseconds of parsed date parts.  A missing offset is treated
as UTC (the model fixes the local time zone to UTC). -/
def epochMs (p : DateParts) : Int :=
  daysFromCivil p.year p.month p.day * 86400000
    + (p.hour : Int) * 3600000 + (p.minute : Int) * 60000
    + (p.second : Int) * 1000 + (p.ms : Int)
    - (p.offsetMinutes.getD 0) * 60000

/-- `new Date(s).getTime()`, `none` standing for `NaN`. -/
def jsDateValue (s : String) : Option Int := (jsDateParse s).map epochMs

/-- `new Date(a) >= new Date(b)` (`false` when either is invalid, as any
comparison with `NaN` is). -/
def dateGe : Option Int → Option Int → Bool
  | some x, some y => decide (y ≤ x)
  | _, _ => false

/-- `LaikaTestClient._isValidISODate(dateString)`: parseable, contains
`'T'`, and contains one of `'Z'`, `'+'`, `'-'` (single-character
`includes` is membership of the character). -/
def isValidISODate (s : String) : Bool :=
  jsDateParses s && s.data.contains 'T'
    && (s.data.contains 'Z' || s.data.contains '+' || s.data.contains '-')

/- ### Events query -/

/-- Pagination metadata of the events envelope. -/
structure EventsMeta where
  total : ℚ
  page : ℚ
  limit : ℚ
  deriving DecidableEq, Repr

/-- A stored event, opaque to the client. -/
structure Event where
  id : String
  deriving DecidableEq, Repr

/-- Parsed 2xx envelope of the events query. -/
structure EventsEnvelope where
  success : Bool
  data : Option (List Event) := none
  meta : Option EventsMeta := none
  deriving DecidableEq, Repr

/-- The filters bag of `getExperimentEvents`. -/
structure EventFilters where
  startDate : Option String := none
  endDate : Option String := none
  userId : Option String := none
  sessionId : Option String := none
  minScore : Option ℚ := none
  maxScore : Option ℚ := none
  feedback : Option String := none
  outcome : Option String := none
  page : Option ℚ := none
  limit : Option ℚ := none
  deriving DecidableEq, Repr

/-- The query parameters of
`GET /api/v1/experiments/{id}/events?...` (one field per
`queryParams.append` in the source; `page` and `limit` are always
appended). -/
structure EventsRequest where
  experimentId : String
  start_date : Option String := none
  end_date : Option String := none
  user_id : Option String := none
  session_id : Option String := none
  min_score : Option ℚ := none
  max_score : Option ℚ := none
  feedback : Option String := none
  outcome : Option String := none
  page : ℚ
  limit : ℚ
  deriving DecidableEq, Repr

/-- The normalized `{ events, meta }` result. -/
structure EventsResult where
  events : List Event
  meta : EventsMeta
  deriving DecidableEq, Repr

/-- `getExperimentEvents(experimentId, filters)`: validate the filters in
source order (pagination, date formats, date range, score range, outcome),
build the query, GET, check the envelope's `success` flag, and normalize
the result, defaulting `meta` to `{ total: 0, page, limit }`. -/
def getExperimentEvents (experimentId : String) (filters : EventFilters)
    (resp : EventsEnvelope) :
    Except ClientError EventsResult × List EventsRequest :=
  if experimentId.isEmpty then
    (.error (.validationError "experimentId is required"), [])
  else
    let page := filters.page.getD 1
    let limit := filters.limit.getD 50
    if page < 1 then
      (.error (.validationError "page must be a positive number"), [])
    else if limit < 1 ∨ 500 < limit then
      (.error (.validationError "limit must be a number between 1 and 500"), [])
    else if truthy filters.startDate && !isValidISODate (filters.startDate.getD "") then
      (.error (.validationError "startDate must be in ISO 8601 format (YYYY-MM-DDTHH:mm:ssZ)"), [])
    else if truthy filters.endDate && !isValidISODate (filters.endDate.getD "") then
      (.error (.validationError "endDate must be in ISO 8601 format (YYYY-MM-DDTHH:mm:ssZ)"), [])
    else if truthy filters.startDate && truthy filters.endDate &&
        dateGe (jsDateValue (filters.startDate.getD "")) (jsDateValue (filters.endDate.getD "")) then
      (.error (.validationError "startDate must be before endDate"), [])
    else if scoreInvalid filters.minScore then
      (.error (.validationError "minScore must be a number between 0 and 10"), [])
    else if scoreInvalid filters.maxScore then
      (.error (.validationError "maxScore must be a number between 0 and 10"), [])
    else if truthy filters.outcome &&
        !(filters.outcome.getD "" == "success" || filters.outcome.getD "" == "failure") then
      (.error (.validationError "outcome must be \"success\" or \"failure\""), [])
    else
      let req : EventsRequest :=
        { experimentId := experimentId
          start_date := if truthy filters.startDate then filters.startDate else none
          end_date := if truthy filters.endDate then filters.endDate else none
          user_id := if truthy filters.userId then filters.userId else none
          session_id := if truthy filters.sessionId then filters.sessionId else none
          min_score := filters.minScore
          max_score := filters.maxScore
          feedback := if truthy filters.feedback then filters.feedback else none
          outcome := if truthy filters.outcome then filters.outcome else none
          page := page
          limit := limit }
      if resp.success then
        (.ok { events := resp.data.getD []
               meta := resp.meta.getD { total := 0, page := page, limit := limit } }, [req])
      else
        (.error (.serviceError "Failed to fetch events"), [req])

/-- The rational 3/2, built without normalization so that kernel
evaluation does not need `Nat.gcd`. -/
def q3half : ℚ := ⟨3, 2, by decide, by norm_num⟩

/- ### Association-list lemmas -/

theorem lookupKey_mapSet_self (k : String) (v : CacheEntry) (c : Cache) :
    lookupKey k (mapSet k v c) = some v := by
  induction c with
  | nil => simp [mapSet, lookupKey]
  | cons p rest ih =>
    by_cases h : p.1 = k
    · simp [mapSet, lookupKey, h]
    · simp [mapSet, lookupKey, h, ih]

theorem lookupKey_mapDelete_self (k : String) (c : Cache) :
    lookupKey k (mapDelete k c) = none := by
  induction c with
  | nil => simp [mapDelete, lookupKey]
  | cons p rest ih =>
    by_cases h : p.1 = k
    · simp [mapDelete, h, ih]
    · simp [mapDelete, lookupKey, h, ih]

theorem lookupKey_mapDelete_ne (k k' : String) (c : Cache) (h : k' ≠ k) :
    lookupKey k' (mapDelete k c) = lookupKey k' c := by
  have hkk' : ¬k = k' := fun he => h he.symm
  induction c with
  | nil => simp [mapDelete]
  | cons p rest ih =>
    by_cases hp : p.1 = k
    · simp [mapDelete, lookupKey, hp, hkk', ih]
    · by_cases hp' : p.1 = k'
      · simp [mapDelete, lookupKey, hp, hp', h]
      · simp [mapDelete, lookupKey, hp, hp', ih]

/-- Lazy expiry is invisible to same-instant reads: the cache state
returned by one `get` yields the same `get` results as the original. -/
theorem get_stable (now : Nat) (e : String) (u s : Option String)
    (e' : String) (u' s' : Option String) (c : Cache) :
    (AssignmentCache.get now e u s (AssignmentCache.get now e' u' s' c).2).1
      = (AssignmentCache.get now e u s c).1 := by
  unfold AssignmentCache.get
  cases hl : lookupKey (AssignmentCache.generateKey e' u' s') c with
  | none => simp [hl]
  | some entry =>
    by_cases hexp : now > entry.expiresAt
    · simp only [hl, if_pos hexp]
      by_cases hkk : AssignmentCache.generateKey e u s = AssignmentCache.generateKey e' u' s'
      · simp [hkk, lookupKey_mapDelete_self, hl, hexp]
      · rw [lookupKey_mapDelete_ne (AssignmentCache.generateKey e' u' s')
            (AssignmentCache.generateKey e u s) c hkk]
        cases lookupKey (AssignmentCache.generateKey e u s) c with
        | none => rfl
        | some entry2 => by_cases h2 : now > entry2.expiresAt <;> simp [h2]
    · simp [hl, hexp]

/-- Strings with equal underlying character lists are equal. -/
theorem stringDataInj {s t : String} (h : s.data = t.data) : s = t := by
  cases s; cases t; exact congrArg String.mk h

/-- Splitting a list at a separator character that occurs in neither
prefix is unambiguous. -/
theorem splitColon : ∀ (a b x y : List Char), ':' ∉ a → ':' ∉ b →
    a ++ ':' :: x = b ++ ':' :: y → a = b ∧ x = y := by
  intro a
  induction a with
  | nil =>
    intro b x y _ hb h
    cases b with
    | nil => simpa using h
    | cons c bs =>
      simp only [List.nil_append, List.cons_append, List.cons.injEq] at h
      exact absurd (by simp [← h.1]) hb
  | cons c as ih =>
    intro b x y ha hb h
    cases b with
    | nil =>
      simp only [List.cons_append, List.nil_append, List.cons.injEq] at h
      exact absurd (by simp [h.1]) ha
    | cons d bs =>
      simp only [List.cons_append, List.cons.injEq] at h
      obtain ⟨rfl, h2⟩ := h
      have ha' : ':' ∉ as := fun hm => ha (List.mem_cons_of_mem _ hm)
      have hb' : ':' ∉ bs := fun hm => hb (List.mem_cons_of_mem _ hm)
      obtain ⟨h3, h4⟩ := ih bs x y ha' hb' h2
      exact ⟨by rw [h3], h4⟩

theorem isEmpty_false_of_ne {x : String} (h : (x == "") = false) : ¬x.isEmpty := by
  simp only [beq_eq_false_iff_ne, ne_eq] at h
  simpa [String.isEmpty_iff] using h

theorem orNull_noColon {o : Option String} (h : goodId o = true) :
    ':' ∉ (orNull o).data := by
  cases o with
  | none => decide
  | some x =>
    simp only [goodId, Bool.and_eq_true, Bool.not_eq_true'] at h
    have hne : ¬x.isEmpty := isEmpty_false_of_ne h.1.1
    simp only [orNull, hne, if_false]
    simpa using h.2

theorem orNull_inj {o1 o2 : Option String} (h1 : goodId o1 = true)
    (h2 : goodId o2 = true) (h : orNull o1 = orNull o2) : o1 = o2 := by
  cases o1 with
  | none =>
    cases o2 with
    | none => rfl
    | some x =>
      simp only [goodId, Bool.and_eq_true, Bool.not_eq_true'] at h2
      have hne : ¬x.isEmpty := isEmpty_false_of_ne h2.1.1
      have hnull : (x == "null") = false := h2.1.2
      simp only [orNull, hne, if_false] at h
      exact absurd h.symm (by simpa using hnull)
  | some x =>
    cases o2 with
    | none =>
      simp only [goodId, Bool.and_eq_true, Bool.not_eq_true'] at h1
      have hne : ¬x.isEmpty := isEmpty_false_of_ne h1.1.1
      have hnull : (x == "null") = false := h1.1.2
      simp only [orNull, hne, if_false] at h
      exact absurd h (by simpa using hnull)
    | some y =>
      simp only [goodId, Bool.and_eq_true, Bool.not_eq_true'] at h1 h2
      have hne1 : ¬x.isEmpty := isEmpty_false_of_ne h1.1.1
      have hne2 : ¬y.isEmpty := isEmpty_false_of_ne h2.1.1
      simp only [orNull, hne1, hne2, if_false] at h
      exact congrArg some h

/-- On experiment ids without `':'` and well-behaved identifiers, the
generated cache key determines the triple. -/
theorem generateKey_inj (e1 e2 : String) (u1 s1 u2 s2 : Option String)
    (he1 : ':' ∉ e1.data) (he2 : ':' ∉ e2.data)
    (hu1 : goodId u1 = true) (hs1 : goodId s1 = true)
    (hu2 : goodId u2 = true) (hs2 : goodId s2 = true)
    (h : AssignmentCache.generateKey e1 u1 s1 = AssignmentCache.generateKey e2 u2 s2) :
    e1 = e2 ∧ u1 = u2 ∧ s1 = s2 := by
  have hdata : e1.data ++ ':' :: ((orNull u1).data ++ ':' :: (orNull s1).data)
      = e2.data ++ ':' :: ((orNull u2).data ++ ':' :: (orNull s2).data) := by
    have := congrArg String.data h
    simpa [AssignmentCache.generateKey, String.data_append, List.append_assoc] using this
  obtain ⟨hee, hrest⟩ := splitColon _ _ _ _ he1 he2 hdata
  obtain ⟨huu, hss⟩ := splitColon _ _ _ _ (orNull_noColon hu1) (orNull_noColon hu2) hrest
  exact ⟨stringDataInj hee, orNull_inj hu1 hu2 (stringDataInj huu),
    orNull_inj hs1 hs2 (stringDataInj hss)⟩

/- ### Resolver and tracking lemmas -/

theorem findCached_exact (now : Nat) (e : String) (u s : Option String) (c : Cache)
    (a : Assignment) (h : (AssignmentCache.get now e u s c).1 = some a) :
    (findCachedAssignment now e u s c).1 = some a := by
  unfold findCachedAssignment
  simp [h]

theorem findCached_user (now : Nat) (e : String) (u s : Option String) (c : Cache)
    (a : Assignment)
    (h1 : (AssignmentCache.get now e u s c).1 = none)
    (hu : truthy u = true)
    (h2 : (AssignmentCache.get now e u none c).1 = some a) :
    (findCachedAssignment now e u s c).1 = some a := by
  unfold findCachedAssignment
  have h2' : (AssignmentCache.get now e u none (AssignmentCache.get now e u s c).2).1
      = some a := by rw [get_stable]; exact h2
  simp [h1, hu, h2']

theorem findCached_session (now : Nat) (e : String) (u s : Option String) (c : Cache)
    (a : Assignment)
    (h1 : (AssignmentCache.get now e u s c).1 = none)
    (h2 : truthy u = true → (AssignmentCache.get now e u none c).1 = none)
    (hs : truthy s = true)
    (h3 : (AssignmentCache.get now e none s c).1 = some a) :
    (findCachedAssignment now e u s c).1 = some a := by
  unfold findCachedAssignment
  cases hu : truthy u with
  | true =>
    have h2' : (AssignmentCache.get now e u none (AssignmentCache.get now e u s c).2).1
        = none := by rw [get_stable]; exact h2 hu
    have h3' : (AssignmentCache.get now e none s
        (AssignmentCache.get now e u none (AssignmentCache.get now e u s c).2).2).1
        = some a := by rw [get_stable, get_stable]; exact h3
    simp [h1, h2', hs, h3']
  | false =>
    have h3' : (AssignmentCache.get now e none s (AssignmentCache.get now e u s c).2).1
        = some a := by rw [get_stable]; exact h3
    simp [h1, hs, h3']

theorem findCached_none (now : Nat) (e : String) (u s : Option String) (c : Cache)
    (h1 : (AssignmentCache.get now e u s c).1 = none)
    (h2 : truthy u = true → (AssignmentCache.get now e u none c).1 = none)
    (h3 : truthy s = true → (AssignmentCache.get now e none s c).1 = none) :
    (findCachedAssignment now e u s c).1 = none := by
  unfold findCachedAssignment
  cases hu : truthy u with
  | true =>
    have h2' : (AssignmentCache.get now e u none (AssignmentCache.get now e u s c).2).1
        = none := by rw [get_stable]; exact h2 hu
    cases hs : truthy s with
    | true =>
      have h3' : (AssignmentCache.get now e none s
          (AssignmentCache.get now e u none (AssignmentCache.get now e u s c).2).2).1
          = none := by rw [get_stable, get_stable]; exact h3 hs
      simp [h1, h2', hs, h3']
    | false => simp [h1, h2', hs]
  | false =>
    cases hs : truthy s with
    | true =>
      have h3' : (AssignmentCache.get now e none s (AssignmentCache.get now e u s c).2).1
          = none := by rw [get_stable]; exact h3 hs
      simp [h1, hs, h3']
    | false => simp [h1, hs]

theorem postEvent_posted (outc fid : String) (opts : TrackOptions)
    (resp : TrackEnvelope) (c : Cache)
    (hscore : scoreInvalid opts.score = false)
    (hfb : feedbackInvalid opts.userFeedback = false) :
    (postEvent outc fid opts resp c).2.2
      = [{ assignment_id := fid, outcome := outc,
           score := opts.score, user_feedback := opts.userFeedback }] := by
  unfold postEvent
  cases hr : resp.success <;> simp [hscore, hfb, hr]

theorem postEvent_invalid (outc fid : String) (opts : TrackOptions)
    (resp : TrackEnvelope) (c : Cache)
    (hbad : scoreInvalid opts.score = true ∨ feedbackInvalid opts.userFeedback = true) :
    (postEvent outc fid opts resp c).2.2 = [] ∧
    (postEvent outc fid opts resp c).1
      = .error (.validationError (if scoreInvalid opts.score then
          "score must be a number between 0 and 10"
        else "userFeedback must be \"positive\", \"negative\", or \"neutral\"")) := by
  unfold postEvent
  cases hsc : scoreInvalid opts.score with
  | true => simp [hsc]
  | false =>
    rcases hbad with hb | hb
    · rw [hsc] at hb; exact absurd hb (by simp)
    · simp [hsc, hb]

/-- Whatever path `trackOutcome` takes, any event body it posts carries
exactly the outcome argument. -/
theorem trackOutcome_posts_outcome (now : Nat) (outc : String) (opts : TrackOptions)
    (resp : TrackEnvelope) (c : Cache) :
    ((trackOutcome now outc opts resp c).2.2.all (fun r => r.outcome == outc)) = true := by
  unfold trackOutcome
  cases hv : validOutcome outc with
  | false => simp
  | true =>
    cases ha : truthy opts.assignmentId && truthy opts.experimentId with
    | true =>
      simp only [Bool.not_true, Bool.false_eq_true, if_false, ha, if_true]
      unfold postEvent
      cases hsc : scoreInvalid opts.score with
      | true => simp [hsc]
      | false =>
        cases hfb : feedbackInvalid opts.userFeedback with
        | true => simp [hsc, hfb]
        | false => cases hr : resp.success <;> simp [hsc, hfb, hr]
    | false =>
      cases hb : truthy opts.experimentId && (truthy opts.userId || truthy opts.sessionId) with
      | true =>
        simp only [Bool.not_true, Bool.false_eq_true, if_false, ha, hb, if_true]
        cases hf : (findCachedAssignment now (opts.experimentId.getD "")
            opts.userId opts.sessionId c).1 with
        | none => simp [hf]
        | some a =>
          simp only [hf]
          unfold postEvent
          cases hsc : scoreInvalid opts.score with
          | true => simp [hsc]
          | false =>
            cases hfb : feedbackInvalid opts.userFeedback with
            | true => simp [hsc, hfb]
            | false => cases hr : resp.success <;> simp [hsc, hfb, hr]
      | false => simp [hv, ha, hb]

/-- A `trackOutcome` call that resolves through the cache posts the
resolved assignment's id. -/
theorem trackOutcome_resolved (now : Nat) (outc : String) (opts : TrackOptions)
    (resp : TrackEnvelope) (c : Cache) (a : Assignment)
    (hout : validOutcome outc = true)
    (haid : truthy opts.assignmentId = false)
    (heid : truthy opts.experimentId = true)
    (hids : (truthy opts.userId || truthy opts.sessionId) = true)
    (hscore : scoreInvalid opts.score = false)
    (hfb : feedbackInvalid opts.userFeedback = false)
    (hfound : (findCachedAssignment now (opts.experimentId.getD "")
        opts.userId opts.sessionId c).1 = some a) :
    (trackOutcome now outc opts resp c).2.2
      = [{ assignment_id := a.assignment_id, outcome := outc,
           score := opts.score, user_feedback := opts.userFeedback }] := by
  unfold trackOutcome
  simp only [hout, Bool.not_true, Bool.false_eq_true, if_false, haid, heid, hids,
    Bool.false_and, Bool.true_and, if_true, hfound]
  exact postEvent_posted outc a.assignment_id opts resp _ hscore hfb

/- ### Claim theorems -/

/-- C1, counterexample: the key function is not injective over all
distinct triples — a present `userId` equal to the string `"null"`
produces the same key as an absent one. -/
theorem c1_counterexample :
    AssignmentCache.generateKey "e1" (some "null") none
      = AssignmentCache.generateKey "e1" none none ∧
    (some "null" : Option String) ≠ none := by
  exact ⟨by decide, by decide⟩

/-- C1 (amended): `_generateKey` is pure and deterministic (it is a
function), and it is injective over distinct triples whose experiment id
contains no `':'` and whose present identifiers are non-empty, differ
from the sentinel string `"null"`, and contain no `':'`; in particular
the keys for `(e, u, ∅)`, `(e, ∅, s)` and `(e, u, s)` never collide under
those restrictions.  Without the restrictions the claim fails
(`c1_counterexample`). -/
theorem c1_generateKey_injective (e1 e2 : String) (u1 s1 u2 s2 : Option String)
    (he1 : ':' ∉ e1.data) (he2 : ':' ∉ e2.data)
    (hu1 : goodId u1 = true) (hs1 : goodId s1 = true)
    (hu2 : goodId u2 = true) (hs2 : goodId s2 = true)
    (hne : ¬(e1 = e2 ∧ u1 = u2 ∧ s1 = s2)) :
    AssignmentCache.generateKey e1 u1 s1 ≠ AssignmentCache.generateKey e2 u2 s2 :=
  fun h => hne (generateKey_inj e1 e2 u1 s1 u2 s2 he1 he2 hu1 hs1 hu2 hs2 h)

/-- C1 witness: the spec's own example `key("e1","u1",∅) ≠ key("e1",∅,"s1")`,
derived from the amended injectivity theorem at a concrete input. -/
theorem c1_generateKey_injective_witness :
    AssignmentCache.generateKey "e1" (some "u1") none
      ≠ AssignmentCache.generateKey "e1" none (some "s1") :=
  c1_generateKey_injective "e1" "e1" (some "u1") none none (some "s1")
    (by decide) (by decide) (by decide) (by decide) (by decide) (by decide) (by decide)

/-- C3: for every TTL `ttl` and assignment `a`, `store` at time `t0`
followed by `get` at the same instant returns `a` unchanged; a `get` at
any `t1` with `t1 - t0 > ttl` returns `none` and deletes the entry from
the map (lazy expiry), so a stale entry is never observed even before the
periodic sweep runs. -/
theorem c3_store_get_ttl (ttl t0 t1 : Nat) (e : String) (u s : Option String)
    (a : Assignment) (c : Cache) :
    (AssignmentCache.get t0 e u s (AssignmentCache.store ttl t0 e u s a c)).1 = some a ∧
    (t0 + ttl < t1 →
      (AssignmentCache.get t1 e u s (AssignmentCache.store ttl t0 e u s a c)).1 = none ∧
      lookupKey (AssignmentCache.generateKey e u s)
        (AssignmentCache.get t1 e u s (AssignmentCache.store ttl t0 e u s a c)).2 = none) := by
  constructor
  · unfold AssignmentCache.get AssignmentCache.store
    rw [lookupKey_mapSet_self]
    have hno : ¬(t0 > t0 + ttl) := by omega
    simp [hno]
  · intro h
    unfold AssignmentCache.get AssignmentCache.store
    rw [lookupKey_mapSet_self]
    refine ⟨?_, ?_⟩
    · simp [h]
    · simp [h, lookupKey_mapDelete_self]

/-- C3 witness: concrete instance with `ttl = 5`, store at `t0 = 0`,
reads at `0` and at `6 > 0 + 5`. -/
theorem c3_store_get_ttl_witness :
    (AssignmentCache.get 0 "e1" (some "u1") none
        (AssignmentCache.store 5 0 "e1" (some "u1") none ⟨"a1", "p1"⟩ [])).1
      = some ⟨"a1", "p1"⟩ ∧
    (AssignmentCache.get 6 "e1" (some "u1") none
        (AssignmentCache.store 5 0 "e1" (some "u1") none ⟨"a1", "p1"⟩ [])).1 = none ∧
    lookupKey (AssignmentCache.generateKey "e1" (some "u1") none)
        (AssignmentCache.get 6 "e1" (some "u1") none
          (AssignmentCache.store 5 0 "e1" (some "u1") none ⟨"a1", "p1"⟩ [])).2 = none := by
  have h := c3_store_get_ttl 5 0 6 "e1" (some "u1") none ⟨"a1", "p1"⟩ []
  exact ⟨h.1, (h.2 (by decide)).1, (h.2 (by decide)).2⟩

/-- C4: `getRandomPrompt` neither reads nor writes the cache: on every
path (validation failure, malformed envelope, success) the cache is
returned unchanged, and if the triple `(e, ∅, ∅)` was absent before the
call, a `get` for it afterwards still returns `none`. -/
theorem c4_random_leaves_cache (e : String) (resp : PromptEnvelope) (c : Cache)
    (now : Nat) :
    (getRandomPrompt e resp c).2.1 = c ∧
    (lookupKey (AssignmentCache.generateKey e none none) c = none →
      (AssignmentCache.get now e none none (getRandomPrompt e resp c).2.1).1 = none) := by
  have hc : (getRandomPrompt e resp c).2.1 = c := by
    unfold getRandomPrompt
    by_cases he : e.isEmpty
    · simp [he]
    · cases hd : resp.data <;> cases hs : resp.success <;> simp [he, hd, hs]
  refine ⟨hc, fun h => ?_⟩
  rw [hc]
  unfold AssignmentCache.get
  simp [h]

/-- C4 witness: concrete successful random fetch on the empty cache. -/
theorem c4_random_leaves_cache_witness :
    (getRandomPrompt "e1" ⟨true, some ⟨"a1", "p1"⟩⟩ []).2.1 = ([] : Cache) ∧
    (AssignmentCache.get 0 "e1" none none
        (getRandomPrompt "e1" ⟨true, some ⟨"a1", "p1"⟩⟩ []).2.1).1 = none := by
  have h := c4_random_leaves_cache "e1" ⟨true, some ⟨"a1", "p1"⟩⟩ [] 0
  exact ⟨h.1, h.2 (by decide)⟩

/-- C5: a `trackOutcome` call with an experiment id, at least one of
user/session id, and no explicit assignment id fails with
`AssignmentNotFoundError` when none of the three probe keys (exact
triple, user-only, session-only) holds a live entry — and it issues no
network request: the error is raised purely from local cache state. -/
theorem c5_assignment_not_found (now : Nat) (outc : String) (opts : TrackOptions)
    (resp : TrackEnvelope) (c : Cache)
    (hout : validOutcome outc = true)
    (haid : truthy opts.assignmentId = false)
    (heid : truthy opts.experimentId = true)
    (hids : (truthy opts.userId || truthy opts.sessionId) = true)
    (h1 : (AssignmentCache.get now (opts.experimentId.getD "")
        opts.userId opts.sessionId c).1 = none)
    (h2 : truthy opts.userId = true →
      (AssignmentCache.get now (opts.experimentId.getD "") opts.userId none c).1 = none)
    (h3 : truthy opts.sessionId = true →
      (AssignmentCache.get now (opts.experimentId.getD "") none opts.sessionId c).1 = none) :
    (trackOutcome now outc opts resp c).1
      = .error (.assignmentNotFoundError
          ("No assignment found for experiment " ++ opts.experimentId.getD ""
            ++ ". Call getPrompt* method first.")) ∧
    (trackOutcome now outc opts resp c).2.2 = [] := by
  have hf := findCached_none now (opts.experimentId.getD "")
    opts.userId opts.sessionId c h1 h2 h3
  constructor <;>
    · unfold trackOutcome
      simp [hout, haid, heid, hids, hf]

/-- C5 witness: tracking before any fetch on the empty cache. -/
theorem c5_assignment_not_found_witness :
    (trackOutcome 0 "success" { experimentId := some "e1", userId := some "u1" }
        ⟨true, none⟩ []).1
      = .error (.assignmentNotFoundError
          "No assignment found for experiment e1. Call getPrompt* method first.") ∧
    (trackOutcome 0 "success" { experimentId := some "e1", userId := some "u1" }
        ⟨true, none⟩ []).2.2 = [] := by
  have h := c5_assignment_not_found 0 "success"
    { experimentId := some "e1", userId := some "u1" } ⟨true, none⟩ []
    (by decide) (by decide) (by decide) (by decide) (by decide)
    (fun _ => by decide) (fun hs => absurd hs (by decide))
  exact h

/-- C2: a `trackOutcome` call without an explicit assignment id resolves
the cached assignment in the order exact triple, then user-only, then
session-only — first match wins — and the matched entry's
`assignment_id` is the one carried by the posted event body.  The three
conjuncts cover the three resolution steps; in particular the first shows
that a live exact-triple entry takes precedence over any user-only
entry. -/
theorem c2_resolution_precedence (now : Nat) (outc : String) (opts : TrackOptions)
    (resp : TrackEnvelope) (c : Cache)
    (hout : validOutcome outc = true)
    (haid : truthy opts.assignmentId = false)
    (heid : truthy opts.experimentId = true)
    (hids : (truthy opts.userId || truthy opts.sessionId) = true)
    (hscore : scoreInvalid opts.score = false)
    (hfb : feedbackInvalid opts.userFeedback = false) :
    (∀ a, (AssignmentCache.get now (opts.experimentId.getD "")
        opts.userId opts.sessionId c).1 = some a →
      (trackOutcome now outc opts resp c).2.2
        = [{ assignment_id := a.assignment_id, outcome := outc,
             score := opts.score, user_feedback := opts.userFeedback }]) ∧
    (∀ a, (AssignmentCache.get now (opts.experimentId.getD "")
        opts.userId opts.sessionId c).1 = none →
      truthy opts.userId = true →
      (AssignmentCache.get now (opts.experimentId.getD "") opts.userId none c).1 = some a →
      (trackOutcome now outc opts resp c).2.2
        = [{ assignment_id := a.assignment_id, outcome := outc,
             score := opts.score, user_feedback := opts.userFeedback }]) ∧
    (∀ a, (AssignmentCache.get now (opts.experimentId.getD "")
        opts.userId opts.sessionId c).1 = none →
      (truthy opts.userId = true →
        (AssignmentCache.get now (opts.experimentId.getD "") opts.userId none c).1 = none) →
      truthy opts.sessionId = true →
      (AssignmentCache.get now (opts.experimentId.getD "") none opts.sessionId c).1 = some a →
      (trackOutcome now outc opts resp c).2.2
        = [{ assignment_id := a.assignment_id, outcome := outc,
             score := opts.score, user_feedback := opts.userFeedback }]) := by
  refine ⟨fun a h => ?_, fun a h1 hu h2 => ?_, fun a h1 h2 hs h3 => ?_⟩
  · exact trackOutcome_resolved now outc opts resp c a hout haid heid hids hscore hfb
      (findCached_exact now _ _ _ c a h)
  · exact trackOutcome_resolved now outc opts resp c a hout haid heid hids hscore hfb
      (findCached_user now _ _ _ c a h1 hu h2)
  · exact trackOutcome_resolved now outc opts resp c a hout haid heid hids hscore hfb
      (findCached_session now _ _ _ c a h1 h2 hs h3)

/-- C2 witness: with both an exact-triple entry (`"exact-id"`) and a
user-only entry (`"user-id"`) live in the cache, the posted event carries
the exact-triple entry's id. -/
theorem c2_resolution_precedence_witness :
    (trackOutcome 7 "success"
        { experimentId := some "e1", userId := some "u1", sessionId := some "s1" }
        ⟨true, some ⟨"ev1"⟩⟩
        (AssignmentCache.store 100 0 "e1" (some "u1") (some "s1") ⟨"exact-id", "p"⟩
          (AssignmentCache.store 100 0 "e1" (some "u1") none ⟨"user-id", "p"⟩ []))).2.2
      = [{ assignment_id := "exact-id", outcome := "success",
           score := none, user_feedback := none }] := by
  exact (c2_resolution_precedence 7 "success"
      { experimentId := some "e1", userId := some "u1", sessionId := some "s1" }
      ⟨true, some ⟨"ev1"⟩⟩
      (AssignmentCache.store 100 0 "e1" (some "u1") (some "s1") ⟨"exact-id", "p"⟩
        (AssignmentCache.store 100 0 "e1" (some "u1") none ⟨"user-id", "p"⟩ []))
      (by decide) (by decide) (by decide) (by decide) (by decide) (by decide)).1
    ⟨"exact-id", "p"⟩ (by decide)

/-- C6, counterexample: the claim says every call with `score = 15` fails
with `ValidationError` before touching the cache; but with
`experimentId`/`userId` supplied and an empty cache the call fails with
`AssignmentNotFoundError` instead — the resolver (a cache access) runs
before the score check. -/
theorem c6_counterexample :
    (trackOutcome 0 "success"
        { experimentId := some "e1", userId := some "u1", score := some 15 }
        ⟨true, none⟩ []).1
      = .error (.assignmentNotFoundError
          "No assignment found for experiment e1. Call getPrompt* method first.") := by
  decide

/-- C6 (amended): outcome validation is pure and precedes everything, but
`score`/`userFeedback` validation runs only after assignment resolution
(hence after cache access).  What survives of the claim: a call with an
invalid score or feedback never issues a network request, and whenever
the call reaches the score/feedback checks with an explicitly supplied
assignment id it fails with the corresponding `ValidationError`. -/
theorem c6_validation_before_network (now : Nat) (outc : String) (opts : TrackOptions)
    (resp : TrackEnvelope) (c : Cache)
    (hbad : scoreInvalid opts.score = true ∨ feedbackInvalid opts.userFeedback = true) :
    (trackOutcome now outc opts resp c).2.2 = [] ∧
    (validOutcome outc = true → truthy opts.assignmentId = true →
      truthy opts.experimentId = true →
      (trackOutcome now outc opts resp c).1
        = .error (.validationError (if scoreInvalid opts.score then
            "score must be a number between 0 and 10"
          else "userFeedback must be \"positive\", \"negative\", or \"neutral\""))) := by
  constructor
  · unfold trackOutcome
    cases hv : validOutcome outc with
    | false => simp
    | true =>
      cases ha : truthy opts.assignmentId && truthy opts.experimentId with
      | true =>
        simp only [hv, Bool.not_true, Bool.false_eq_true, if_false, ha, if_true]
        exact (postEvent_invalid outc (opts.assignmentId.getD "") opts resp c hbad).1
      | false =>
        cases hb : truthy opts.experimentId && (truthy opts.userId || truthy opts.sessionId) with
        | true =>
          simp only [hv, Bool.not_true, Bool.false_eq_true, if_false, ha, hb, if_true]
          cases hf : (findCachedAssignment now (opts.experimentId.getD "")
              opts.userId opts.sessionId c).1 with
          | none => simp [hf]
          | some a =>
            simp only [hf]
            exact (postEvent_invalid outc a.assignment_id opts resp _ hbad).1
        | false => simp [hv, ha, hb]
  · intro hv ha he
    unfold trackOutcome
    simp only [hv, Bool.not_true, Bool.false_eq_true, if_false, ha, he,
      Bool.and_self, if_true]
    exact (postEvent_invalid outc (opts.assignmentId.getD "") opts resp c hbad).2

/-- C6 witness: explicit assignment id plus `score = 15` yields the score
`ValidationError` and no request. -/
theorem c6_validation_before_network_witness :
    (trackOutcome 0 "success"
        { experimentId := some "e1", assignmentId := some "a1", score := some 15 }
        ⟨true, none⟩ []).2.2 = [] ∧
    (trackOutcome 0 "success"
        { experimentId := some "e1", assignmentId := some "a1", score := some 15 }
        ⟨true, none⟩ []).1
      = .error (.validationError "score must be a number between 0 and 10") := by
  have h := c6_validation_before_network 0 "success"
    { experimentId := some "e1", assignmentId := some "a1", score := some 15 }
    ⟨true, none⟩ [] (Or.inl (by decide))
  refine ⟨h.1, ?_⟩
  have h2 := h.2 (by decide) (by decide) (by decide)
  rwa [if_pos (by decide)] at h2

/-- C7, counterexample: `"2024-01-15T10:00:00"` parses, has a time
component, and has no zone/offset designator (no `'Z'`; its only `'+'`/`'-'`
characters are the date hyphens) — yet `_isValidISODate` accepts it
(the `includes('-')` zone probe matches the date hyphens) and
`getExperimentEvents` proceeds instead of raising `ValidationError`. -/
theorem c7_counterexample :
    isValidISODate "2024-01-15T10:00:00" = true ∧
    "2024-01-15T10:00:00".data.contains 'Z' = false ∧
    (getExperimentEvents "e1" { startDate := some "2024-01-15T10:00:00" }
        ⟨true, none, none⟩).1
      = .ok { events := [], meta := { total := 0, page := 1, limit := 50 } } := by
  exact ⟨by decide, by decide, by decide⟩

/-- C7 (amended): `getExperimentEvents` raises `ValidationError` (before
any network request) for every non-empty `startDate` or `endDate` that
fails `_isValidISODate` — i.e. is unparseable, or lacks a `'T'`, or
contains none of `'Z'`/`'+'`/`'-'`.  The first conjunct covers a bad
`startDate`; the second a bad `endDate`, which is reached once the
`startDate` check passes (absent/empty, or valid).  The zone requirement
is not genuinely enforced: a parseable date-time containing `'-'` only as
date separators is accepted (`c7_counterexample`). -/
theorem c7_date_validation (e : String) (filters : EventFilters) (resp : EventsEnvelope)
    (he : e.isEmpty = false)
    (hpage : ¬(filters.page.getD 1 < 1))
    (hlimit : ¬(filters.limit.getD 50 < 1 ∨ 500 < filters.limit.getD 50)) :
    (∀ s, filters.startDate = some s → s.isEmpty = false →
      isValidISODate s = false →
      (getExperimentEvents e filters resp).1
        = .error (.validationError
            "startDate must be in ISO 8601 format (YYYY-MM-DDTHH:mm:ssZ)") ∧
      (getExperimentEvents e filters resp).2 = []) ∧
    (∀ s, (truthy filters.startDate = true →
        isValidISODate (filters.startDate.getD "") = true) →
      filters.endDate = some s → s.isEmpty = false →
      isValidISODate s = false →
      (getExperimentEvents e filters resp).1
        = .error (.validationError
            "endDate must be in ISO 8601 format (YYYY-MM-DDTHH:mm:ssZ)") ∧
      (getExperimentEvents e filters resp).2 = []) := by
  constructor
  · intro s hs hsne hbad
    constructor <;>
      · unfold getExperimentEvents
        simp [he, hpage, hlimit, hs, hsne, truthy, hbad]
  · intro s hgood hs hsne hbad
    have hpair : getExperimentEvents e filters resp
        = (.error (.validationError
            "endDate must be in ISO 8601 format (YYYY-MM-DDTHH:mm:ssZ)"), []) := by
      unfold getExperimentEvents
      cases hts : truthy filters.startDate with
      | false => simp [he, hpage, hlimit, hts, hs, hsne, truthy, hbad]
      | true =>
        have hv := hgood hts
        simp [he, hpage, hlimit, hts, hv, hs, hsne, truthy, hbad]
    exact ⟨by rw [hpair], by rw [hpair]⟩

/-- C7 witness: `startDate = "2024-01-15"` and, separately,
`endDate = "2024-01-15"` (no time component) are each rejected with the
corresponding date-format `ValidationError` and no request. -/
theorem c7_date_validation_witness :
    ((getExperimentEvents "e1" { startDate := some "2024-01-15" } ⟨true, none, none⟩).1
      = .error (.validationError
          "startDate must be in ISO 8601 format (YYYY-MM-DDTHH:mm:ssZ)") ∧
     (getExperimentEvents "e1" { startDate := some "2024-01-15" } ⟨true, none, none⟩).2
      = []) ∧
    ((getExperimentEvents "e1" { endDate := some "2024-01-15" } ⟨true, none, none⟩).1
      = .error (.validationError
          "endDate must be in ISO 8601 format (YYYY-MM-DDTHH:mm:ssZ)") ∧
     (getExperimentEvents "e1" { endDate := some "2024-01-15" } ⟨true, none, none⟩).2
      = []) := by
  exact ⟨(c7_date_validation "e1" { startDate := some "2024-01-15" } ⟨true, none, none⟩
      (by decide) (by decide) (by decide)).1 "2024-01-15" rfl (by decide) (by decide),
    (c7_date_validation "e1" { endDate := some "2024-01-15" } ⟨true, none, none⟩
      (by decide) (by decide) (by decide)).2 "2024-01-15"
      (fun hts => absurd hts (by decide)) rfl (by decide) (by decide)⟩

/-- C8, counterexample: `page = 3/2` is not an integer, and is neither
rejected nor rounded — the call succeeds (the claim demands
`ValidationError` for every non-integer page), and the non-integral value
flows into the defaulted `meta`. -/
theorem c8_counterexample :
    (getExperimentEvents "e1" { page := some q3half } ⟨true, none, none⟩).1
      = .ok { events := [], meta := { total := 0, page := q3half, limit := 50 } } ∧
    q3half.den = 2 ∧ (1 : ℚ) ≤ q3half := by
  exact ⟨by decide, by decide, by decide⟩

/-- C8 (amended): `page` is validated as a number `≥ 1` and `limit` as a
number in `[1, 500]` — integrality is not checked (`c8_counterexample`);
when omitted they default to `1` and `50`, which are the values attached
to the issued request. -/
theorem c8_pagination_validation (e : String) (filters : EventFilters)
    (resp : EventsEnvelope) (he : e.isEmpty = false) :
    ((filters.page.getD 1 < 1) →
      (getExperimentEvents e filters resp).1
        = .error (.validationError "page must be a positive number") ∧
      (getExperimentEvents e filters resp).2 = []) ∧
    (¬(filters.page.getD 1 < 1) →
      (filters.limit.getD 50 < 1 ∨ 500 < filters.limit.getD 50) →
      (getExperimentEvents e filters resp).1
        = .error (.validationError "limit must be a number between 1 and 500") ∧
      (getExperimentEvents e filters resp).2 = []) ∧
    (getExperimentEvents e {} resp).2
      = [{ experimentId := e, page := 1, limit := 50 }] := by
  refine ⟨fun hp => ?_, fun hp hl => ?_, ?_⟩
  · constructor <;>
      · unfold getExperimentEvents
        simp [he, hp]
  · constructor <;>
      · unfold getExperimentEvents
        simp [he, hp, hl]
  · have h1 : ¬((1 : ℚ) < 1) := by norm_num
    have h2 : ¬((50 : ℚ) < 1 ∨ 500 < (50 : ℚ)) := by norm_num
    have h3 : ¬((500 : ℚ) < 50) := by norm_num
    unfold getExperimentEvents
    cases hr : resp.success <;> simp [he, truthy, scoreInvalid, h1, h2, h3, hr]

/-- C8 witness: `page = 0` and `limit = 1000` are rejected; with no
filters the issued request carries `page = 1`, `limit = 50`. -/
theorem c8_pagination_validation_witness :
    (getExperimentEvents "e1" { page := some 0 } ⟨true, none, none⟩).1
      = .error (.validationError "page must be a positive number") ∧
    (getExperimentEvents "e1" { limit := some 1000 } ⟨true, none, none⟩).1
      = .error (.validationError "limit must be a number between 1 and 500") ∧
    (getExperimentEvents "e1" {} ⟨true, none, none⟩).2
      = [{ experimentId := "e1", page := 1, limit := 50 }] := by
  exact ⟨((c8_pagination_validation "e1" { page := some 0 } ⟨true, none, none⟩
      (by decide)).1 (by decide)).1,
    ((c8_pagination_validation "e1" { limit := some 1000 } ⟨true, none, none⟩
      (by decide)).2.1 (by decide) (by decide)).1,
    (c8_pagination_validation "e1" {} ⟨true, none, none⟩ (by decide)).2.2⟩

/-- C9: on any 2xx response whose envelope violates the inner
success/data contract, each operation raises `LaikaServiceError` instead
of returning the malformed envelope: the three prompt fetches require
`success` and a present `data`, while `trackOutcome` and
`getExperimentEvents` require `success` (their `data` is defaulted, not
required).  The fetch conjuncts assume a cache miss so that the network
is reached. -/
theorem c9_bad_envelope_service_error (ttl now : Nat) (e u s : String) (c : Cache)
    (presp : PromptEnvelope) (tresp : TrackEnvelope) (eresp : EventsEnvelope)
    (outc : String) (opts : TrackOptions) :
    (e.isEmpty = false → u.isEmpty = false →
      (AssignmentCache.get now e (some u) none c).1 = none →
      presp.success = false ∨ presp.data = none →
      (getPromptForUser ttl now e u presp c).1
        = .error (.serviceError "Invalid response format")) ∧
    (e.isEmpty = false → s.isEmpty = false →
      (AssignmentCache.get now e none (some s) c).1 = none →
      presp.success = false ∨ presp.data = none →
      (getPromptForSession ttl now e s presp c).1
        = .error (.serviceError "Invalid response format")) ∧
    (e.isEmpty = false →
      presp.success = false ∨ presp.data = none →
      (getRandomPrompt e presp c).1 = .error (.serviceError "Invalid response format")) ∧
    (validOutcome outc = true → truthy opts.assignmentId = true →
      truthy opts.experimentId = true → scoreInvalid opts.score = false →
      feedbackInvalid opts.userFeedback = false → tresp.success = false →
      (trackOutcome now outc opts tresp c).1
        = .error (.serviceError "Failed to track event")) ∧
    (e.isEmpty = false → eresp.success = false →
      (getExperimentEvents e {} eresp).1
        = .error (.serviceError "Failed to fetch events")) := by
  refine ⟨fun he hu hmiss hbad => ?_, fun he hs hmiss hbad => ?_, fun he hbad => ?_,
    fun hv ha hei hsc hfb hts => ?_, fun he hes => ?_⟩
  · unfold getPromptForUser
    rcases hbad with hb | hb
    · cases hd : presp.data <;> simp [he, hu, hmiss, hb, hd]
    · cases hsv : presp.success <;> simp [he, hu, hmiss, hb, hsv]
  · unfold getPromptForSession
    rcases hbad with hb | hb
    · cases hd : presp.data <;> simp [he, hs, hmiss, hb, hd]
    · cases hsv : presp.success <;> simp [he, hs, hmiss, hb, hsv]
  · unfold getRandomPrompt
    rcases hbad with hb | hb
    · cases hd : presp.data <;> simp [he, hb, hd]
    · cases hsv : presp.success <;> simp [he, hb, hsv]
  · unfold trackOutcome postEvent
    simp [hv, ha, hei, hsc, hfb, hts]
  · have h1 : ¬((1 : ℚ) < 1) := by norm_num
    have h2 : ¬((50 : ℚ) < 1 ∨ 500 < (50 : ℚ)) := by norm_num
    have h3 : ¬((500 : ℚ) < 50) := by norm_num
    unfold getExperimentEvents
    simp [he, truthy, scoreInvalid, h1, h2, h3, hes]

/-- C9 witness: all five operations at concrete inputs with
`success = false` envelopes. -/
theorem c9_bad_envelope_service_error_witness :
    (getPromptForUser 5 0 "e1" "u1" ⟨false, none⟩ []).1
      = .error (.serviceError "Invalid response format") ∧
    (getPromptForSession 5 0 "e1" "s1" ⟨false, none⟩ []).1
      = .error (.serviceError "Invalid response format") ∧
    (getRandomPrompt "e1" ⟨false, none⟩ []).1
      = .error (.serviceError "Invalid response format") ∧
    (trackOutcome 0 "success" { experimentId := some "e1", assignmentId := some "a1" }
        ⟨false, none⟩ []).1
      = .error (.serviceError "Failed to track event") ∧
    (getExperimentEvents "e1" {} ⟨false, none, none⟩).1
      = .error (.serviceError "Failed to fetch events") := by
  have h := c9_bad_envelope_service_error 5 0 "e1" "u1" "s1" [] ⟨false, none⟩
    ⟨false, none⟩ ⟨false, none, none⟩ "success"
    { experimentId := some "e1", assignmentId := some "a1" }
  exact ⟨h.1 (by decide) (by decide) (by decide) (Or.inl rfl),
    h.2.1 (by decide) (by decide) (by decide) (Or.inl rfl),
    h.2.2.1 (by decide) (Or.inl rfl),
    h.2.2.2.1 (by decide) (by decide) (by decide) (by decide) (by decide) rfl,
    h.2.2.2.2 (by decide) rfl⟩

/-- C10: `trackFeedback(feedback, options)` is definitionally
`trackOutcome('success', { ...options, userFeedback: feedback })`, and
consequently every event body it posts carries the outcome `"success"` —
it can never record a `"failure"` outcome. -/
theorem c10_trackFeedback_success (now : Nat) (fb : String) (opts : TrackOptions)
    (resp : TrackEnvelope) (c : Cache) :
    trackFeedback now fb opts resp c
      = trackOutcome now "success" { opts with userFeedback := some fb } resp c ∧
    ((trackFeedback now fb opts resp c).2.2.all
      (fun r => r.outcome == "success")) = true :=
  ⟨rfl, trackOutcome_posts_outcome now "success"
    { opts with userFeedback := some fb } resp c⟩

end LaikaClient
